import Mathlib

/-!
Shallow embedding of the movie-recommendation system's core
(`src/mrs/models/popularity.py`, `src/mrs/models/content_tfidf.py`,
`src/mrs/serving/api.py`, `src/mrs/serving/movies_lookup.py`)
together with theorems settling the spec claims.

Modelling conventions:
* Python floats are modelled as exact rationals `ℚ` (for the popularity
  scorer, whose arithmetic is plain field arithmetic) and as `ℝ` where the
  code takes square roots (cosine similarity in the content engine).
* `pandas.DataFrame.sort_values` and `numpy.argsort` are modelled as a
  deterministic sort (`List.insertionSort`) by the requested key.  Both
  library calls use an **unstable** default sort (`kind='quicksort'`,
  numpy introsort), so their order among tied keys is implementation
  behaviour the program does not specify; the model's tie order is an
  artefact needed for executability, and no theorem below relies on the
  relative order of tied keys (similarity ties in `similar_items` only
  affect which of equally-similar items appear, never the seed-exclusion
  or emptiness facts proved about it).
* `pandas.groupby(key).agg` is modelled by aggregating, for each distinct
  key in ascending order, over the rows whose key matches (`List.filter`).
-/

/-- `mrs.models.base.Rec`: the atomic output unit `(movie_id, score)`. -/
structure Rec where
  movie_id : Int
  score : ℚ
deriving DecidableEq, Repr

/-- One row of the cleaned ratings table `(userId, movieId, rating, timestamp)`. -/
structure Rating where
  userId : Int
  movieId : Int
  rating : ℚ
  timestamp : Int
deriving DecidableEq, Repr

/-- Ratings of the rows whose `movieId` equals `i` (one `groupby` group). -/
def ratingsFor (rs : List Rating) (i : Int) : List ℚ :=
  (rs.filter (fun r => r.movieId = i)).map (fun r => r.rating)

/-- Number of ratings of item `i` (the `count` aggregate `n_i`). -/
def itemCount (rs : List Rating) (i : Int) : ℕ :=
  (ratingsFor rs i).length

/-- Mean rating of item `i` (the `mean` aggregate `m_i`). -/
def itemMean (rs : List Rating) (i : Int) : ℚ :=
  (ratingsFor rs i).sum / (ratingsFor rs i).length

/-- Global mean `μ` over the whole ratings table (`ratings["rating"].mean()`). -/
def globalMean (rs : List Rating) : ℚ :=
  (rs.map (fun r => r.rating)).sum / (rs.map (fun r => r.rating)).length

/-- The shrinkage formula of `popularity.py` line 22 with strength `m = 50`:
`(count * mean + 50 * global_mean) / (count + 50)`. -/
def shrinkScore (n m mu : ℚ) : ℚ :=
  (n * m + 50 * mu) / (n + 50)

/-- The distinct `movieId` keys of the grouped frame, in ascending order
(`groupby` sorts its keys ascending). -/
def groupKeys (rs : List Rating) : List Int :=
  ((rs.map (fun r => r.movieId)).dedup).insertionSort (fun a b => a ≤ b)

/-- `mrs.models.popularity.PopularityRecommender`: the trained ranked list. -/
structure PopularityRecommender where
  ranked : List Rec
deriving DecidableEq, Repr

/-- `PopularityRecommender.train`: group by `movieId`, aggregate mean and
count, score with shrinkage toward the global mean, sort descending by
score.  `sort_values` defaults to the unstable `'quicksort'`, so the
program specifies only the descending score order; the model's concrete
tie order is not a program guarantee and no theorem depends on it. -/
def PopularityRecommender.train (rs : List Rating) : PopularityRecommender :=
  let gm := globalMean rs
  let rows := (groupKeys rs).map (fun i =>
    Rec.mk i (shrinkScore (itemCount rs i) (itemMean rs i) gm))
  { ranked := rows.insertionSort (fun a b => b.score ≤ a.score) }

/-- `PopularityRecommender.recommend`: `self.ranked[:k]`; `user_id` unused. -/
def PopularityRecommender.recommend (m : PopularityRecommender)
    (_user_id : Int) (k : ℕ) : List Rec :=
  m.ranked.take k

/-! ### Content similarity engine (`mrs/models/content_tfidf.py`)

The TF-IDF matrix is a dense array of non-negative `float32` entries,
modelled as exact rationals.  Cosine similarity requires square roots, so
similarity values are real numbers; for `similar_items`, whose observable
output (the chosen item ids, in order) depends on the similarities only
through their relative order, we use the exact rational order-key
`x ↦ x * |x|` applied to the cosine — i.e. `sgn(cos) * cos²`, a strictly
monotone image of the cosine that is expressible without square roots —
so the selected ids and their order are exactly those of the code. -/

/-- Dot product of two feature rows. -/
def dot (a b : List ℚ) : ℚ :=
  (List.zipWith (fun x y => x * y) a b).sum

/-- Squared euclidean norm of a feature row. -/
def normSq (a : List ℚ) : ℚ :=
  dot a a

/-- Strictly monotone image `sgn(cos)·cos²` of `sklearn` cosine similarity,
in exact arithmetic; `sklearn` defines the similarity as `0` when either
row has norm `0`. -/
def simKey (a b : List ℚ) : ℚ :=
  if normSq a = 0 ∨ normSq b = 0 then 0
  else (dot a b * |dot a b|) / (normSq a * normSq b)

/-- Cosine similarity `(a·b)/(‖a‖‖b‖)` itself, `0` on zero-norm rows. -/
noncomputable def cosine_similarity (a b : List ℚ) : ℝ :=
  if normSq a = 0 ∨ normSq b = 0 then 0
  else ((dot a b : ℚ) : ℝ) / (Real.sqrt ((normSq a : ℚ) : ℝ) * Real.sqrt ((normSq b : ℚ) : ℝ))

/-! ### Serving layer (`mrs/serving/api.py`, `mrs/serving/movies_lookup.py`)

The FastAPI app is modelled as pure handler functions over an explicit
service state mirroring the module-level globals `POP_MODEL`,
`CONTENT_MODEL`, `MOVIES_LOOKUP` and `MODELS_LOADED`; the artifact
directory is modelled as the optional artifacts it contains.  FastAPI
rejects parameters violating `Query` constraints (`ge`/`le`/`min_length`)
before the handler body runs, with a validation-error response (HTTP 422);
this is modelled by the `invalid` outcomes. -/

/-- Catalog metadata as built by `load_movies_lookup` (stripped strings). -/
structure MovieMeta where
  title : String
  genres : String
deriving DecidableEq, Repr

/-- `mrs.models.content_tfidf.ContentTfidfModel`: parallel item-id index and
dense TF-IDF matrix.  The vectorizer is persisted by the code but unused on
every serving path, so it is not modelled. -/
structure ContentTfidfModel where
  movie_ids : List Int
  tfidf_matrix : List (List ℚ)
deriving DecidableEq

/-- `ContentTfidfModel.similar_items`: find the first row index of
`movie_id` (`np.where(...)[0]`, empty → `[]`), compute similarities of that
row against the whole matrix, overwrite the seed's entry with the sentinel
`-1.0`, and take the `k` indices of highest similarity
(`np.argsort(-sims)[:k]`), returned as item ids.  Similarities are
represented by their order-isomorphic key `simKey`, so the produced id list
is exactly the code's; the accompanying float scores are not modelled. -/
def ContentTfidfModel.similar_items (m : ContentTfidfModel)
    (movie_id : Int) (k : ℕ) : List Int :=
  match (List.range m.movie_ids.length).find?
      (fun j => decide (m.movie_ids.getD j 0 = movie_id)) with
  | none => []
  | some i =>
    let row := m.tfidf_matrix.getD i []
    let sims : ℕ → ℚ := fun j =>
      if j = i then -1 else simKey row (m.tfidf_matrix.getD j [])
    let top := ((List.range m.tfidf_matrix.length).insertionSort
      (fun a b => sims b ≤ sims a)).take k
    top.map (fun j => m.movie_ids.getD j 0)

/-- `ContentTfidfModel.recommend`: full pairwise cosine similarity, zeroed
diagonal, rank by mean similarity to all rows ("catalog centrality"),
take the top `k`.  The caller-supplied `user_id` is never read. -/
noncomputable def ContentTfidfModel.recommend (m : ContentTfidfModel)
    (_user_id : Int) (k : ℕ) : List (Int × ℝ) :=
  let n := m.tfidf_matrix.length
  let row : ℕ → List ℚ := fun j => m.tfidf_matrix.getD j []
  let centrality : ℕ → ℝ := fun i =>
    (((List.range n).map (fun j =>
      if j = i then 0 else cosine_similarity (row i) (row j))).sum) / n
  let top := ((List.range n).insertionSort
    (fun a b => centrality b ≤ centrality a)).take k
  top.map (fun j => (m.movie_ids.getD j 0, centrality j))

/-- Python `str.strip()`: drop leading and trailing whitespace
(implemented character-wise so that concrete values compute). -/
def pyStrip (s : String) : String :=
  String.mk (((s.data.dropWhile Char.isWhitespace).reverse.dropWhile
    Char.isWhitespace).reverse)

/-- The `_clean_text` helper on a string value: strip whitespace, map the
empty result to `None`.  (Its NaN handling is unreachable for the string
values produced by `load_movies_lookup`.) -/
def clean_text (s : String) : Option String :=
  let t := pyStrip s
  if t = "" then none else some t

/-- The movies lookup `MOVIES_LOOKUP`, a dict `movie_id -> {title, genres}`
iterated in insertion order: modelled as an association list. -/
def lookupMeta (lookup : List (Int × MovieMeta)) (mid : Int) : Option MovieMeta :=
  (lookup.find? (fun p => decide (p.1 = mid))).map (fun p => p.2)

/-- The record `{movie_id, title, genres}` of `/v1/movies/{id}` responses. -/
structure MovieRecord where
  movie_id : Int
  title : Option String
  genres : Option String
deriving DecidableEq, Repr

/-- `_movie_record`: look the id up (`MOVIES_LOOKUP.get(movie_id, {})` —
absence yields missing fields) and clean both display fields. -/
def movie_record (lookup : List (Int × MovieMeta)) (movie_id : Int) : MovieRecord :=
  match lookupMeta lookup movie_id with
  | some meta => ⟨movie_id, clean_text meta.title, clean_text meta.genres⟩
  | none => ⟨movie_id, none, none⟩

/-- Response of `/v1/movies/{id}`. -/
inductive GetMovieResponse
  | ok (record : MovieRecord)
  | notFound
deriving DecidableEq, Repr

/-- HTTP status of a `/v1/movies/{id}` response. -/
def GetMovieResponse.status : GetMovieResponse → ℕ
  | .ok _ => 200
  | .notFound => 404

/-- Python `str.casefold()`, modelled as per-character lowercasing. -/
def casefold (s : String) : String :=
  String.mk (s.data.map Char.toLower)

/-- Python's substring test `pat in s`. -/
def containsSubstr (s pat : String) : Bool :=
  (List.range (s.data.length + 1)).any (fun i => pat.data.isPrefixOf (s.data.drop i))

/-- Response of `/v1/movies/search`. -/
inductive SearchResponse
  | ok (q : String) (limit : Int) (results : List MovieRecord)
  | emptyQuery
  | invalid
deriving DecidableEq, Repr

/-- HTTP status of a `/v1/movies/search` response: the handler's own
"Empty query." rejection is 400, a `Query` constraint violation is 422. -/
def SearchResponse.status : SearchResponse → ℕ
  | .ok _ _ _ => 200
  | .emptyQuery => 400
  | .invalid => 422

/-- The accumulation loop of `search_movies`: walk the lookup in iteration
order, collect each entry whose title contains the query (case-folded),
and break as soon as the results reach `limit`.  The remaining capacity
`limit - len(results)` is the explicit argument. -/
def searchLoop (query : String) : List (Int × MovieMeta) → ℕ → List MovieRecord
  | [], _ => []
  | p :: rest, limit =>
    if containsSubstr (casefold p.2.title) query then
      let r : MovieRecord := ⟨p.1, clean_text p.2.title, clean_text p.2.genres⟩
      if limit ≤ 1 then [r] else r :: searchLoop query rest (limit - 1)
    else searchLoop query rest limit

/-- `search_movies` (`GET /v1/movies/search`): `q` is a required query
parameter with `min_length=1` and `limit` has `ge=1, le=50` (violations are
rejected by FastAPI validation, `invalid`); the handler strips and
case-folds `q`, rejects a blank result with 400, and otherwise scans the
lookup in iteration order collecting case-insensitive title matches,
capped at `limit`. -/
def Api.search_movies (lookup : List (Int × MovieMeta)) (q : String)
    (limit : Int) : SearchResponse :=
  if q.length < 1 ∨ limit < 1 ∨ 50 < limit then .invalid
  else
    let query := casefold (pyStrip q)
    if query = "" then .emptyQuery
    else .ok q limit (searchLoop query lookup limit.toNat)

/-- `Api.get_movie` (`GET /v1/movies/{id}`): build the movie record and
answer 404 when both cleaned display fields are `None`. -/
def Api.get_movie (lookup : List (Int × MovieMeta)) (movie_id : Int) :
    GetMovieResponse :=
  let record := movie_record lookup movie_id
  if record.title = none ∧ record.genres = none then .notFound
  else .ok record

/-- The `strategy` query parameter of `/v1/recommendations`. -/
inductive Strategy
  | popularity
  | content
deriving DecidableEq, Repr

/-- One enriched entry of a recommendations / similar-items response:
`{movie_id, title, genres, score?}`. -/
structure OutRec where
  movie_id : Int
  title : Option String
  genres : Option String
  score : Option ℝ

/-- Enrichment plus normalization of a popularity result list: drop entries
without a positive id (`movie_id <= 0: continue`), join display fields from
the lookup, keep the score. -/
def normalizePop (lookup : List (Int × MovieMeta)) (recs : List Rec) :
    List OutRec :=
  (recs.filter (fun r => decide (0 < r.movie_id))).map (fun r =>
    ⟨r.movie_id, (movie_record lookup r.movie_id).title,
      (movie_record lookup r.movie_id).genres, some ((r.score : ℚ) : ℝ)⟩)

/-- Enrichment plus normalization of a content-strategy result list. -/
def normalizeContent (lookup : List (Int × MovieMeta)) (recs : List (Int × ℝ)) :
    List OutRec :=
  (recs.filter (fun r => decide (0 < r.1))).map (fun r =>
    ⟨r.1, (movie_record lookup r.1).title, (movie_record lookup r.1).genres,
      some r.2⟩)

/-- Enrichment plus normalization of a similar-items id list (the float
scores attached by the code are not modelled, see
`ContentTfidfModel.similar_items`). -/
def simOut (lookup : List (Int × MovieMeta)) (ids : List Int) : List OutRec :=
  (ids.filter (fun mid => decide (0 < mid))).map (fun mid =>
    ⟨mid, (movie_record lookup mid).title, (movie_record lookup mid).genres,
      none⟩)

/-- The module-level serving globals: `POP_MODEL`, `CONTENT_MODEL`,
`MOVIES_LOOKUP`, `MODELS_LOADED`. -/
structure ServiceState where
  pop_model : Option PopularityRecommender
  content_model : Option ContentTfidfModel
  movies_lookup : List (Int × MovieMeta)
  models_loaded : Bool

/-- The run's artifact directory: which model artifacts exist on disk, and
what they decode to. -/
structure Disk where
  pop_artifact : Option PopularityRecommender
  content_artifact : Option ContentTfidfModel

/-- The `lifespan` startup hook: load the popularity artifact eagerly
(absence leaves `MODELS_LOADED = False`); the content model is never
loaded at startup (`CONTENT_MODEL = None`). -/
def Api.lifespan (d : Disk) (lookup : List (Int × MovieMeta)) : ServiceState :=
  match d.pop_artifact with
  | none => ⟨none, none, lookup, false⟩
  | some p => ⟨some p, none, lookup, true⟩

/-- Response of `/v1/recommendations`. -/
inductive RecResponse
  | ok (user_id : Int) (k : Int) (strategy : Strategy)
      (recommendations : List OutRec)
  | notLoaded
  | contentUnavailable
  | invalid

/-- HTTP status of a `/v1/recommendations` response: 503 from
`_ensure_loaded`, 400 for "Content model is not loaded yet", 422 for a
`Query` constraint violation. -/
def RecResponse.status : RecResponse → ℕ
  | .ok _ _ _ _ => 200
  | .notLoaded => 503
  | .contentUnavailable => 400
  | .invalid => 422

/-- The recommendation list carried by a successful response. -/
def RecResponse.recs : RecResponse → Option (List OutRec)
  | .ok _ _ _ out => some out
  | _ => none

/-- `Api.recommendations` (`GET /v1/recommendations`): validate
`user_id >= 1` and `1 <= k <= 50`, require the popularity model
(`_ensure_loaded`), then dispatch on the strategy.  The popularity branch
calls `POP_MODEL.recommend(user_id=..., k=...)`; the content branch
requires `CONTENT_MODEL` to be **already loaded** — it performs no loading
itself — and otherwise fails with the 400 "Content model is not loaded
yet.  Use Similar Explorer first to lazy-load it." response. -/
noncomputable def Api.recommendations (st : ServiceState) (user_id : Int)
    (k : Int) (strategy : Strategy) : RecResponse :=
  if user_id < 1 ∨ k < 1 ∨ 50 < k then .invalid
  else if ¬ st.models_loaded ∨ st.pop_model = none then .notLoaded
  else
    match strategy with
    | .popularity =>
      match st.pop_model with
      | some p =>
        .ok user_id k strategy
          (normalizePop st.movies_lookup (p.recommend user_id k.toNat))
      | none => .notLoaded
    | .content =>
      match st.content_model with
      | none => .contentUnavailable
      | some c =>
        .ok user_id k strategy
          (normalizeContent st.movies_lookup (c.recommend user_id k.toNat))

/-- Response of `/v1/similar-items`. -/
inductive SimResponse
  | ok (movie_id : Int) (k : Int) (similar_items : List OutRec)
  | notLoaded
  | contentUnavailable
  | invalid

/-- HTTP status of a `/v1/similar-items` response: 400 is the
"Content model is not available." rejection. -/
def SimResponse.status : SimResponse → ℕ
  | .ok _ _ _ => 200
  | .notLoaded => 503
  | .contentUnavailable => 400
  | .invalid => 422

/-- `Api.similar_items` (`GET /v1/similar-items`): validate parameters,
require the popularity model, then lazy-load the content model from disk
if it is not already loaded (`global CONTENT_MODEL`): an absent artifact
fails that request with 400 and leaves the state unchanged; a present one
is stored back into the service state.  Finally answer from the (now
loaded) model's `similar_items`. -/
def Api.similar_items (d : Disk) (st : ServiceState) (movie_id : Int)
    (k : Int) : SimResponse × ServiceState :=
  if movie_id < 1 ∨ k < 1 ∨ 50 < k then (.invalid, st)
  else if ¬ st.models_loaded ∨ st.pop_model = none then (.notLoaded, st)
  else
    match st.content_model with
    | some c =>
      (.ok movie_id k (simOut st.movies_lookup (c.similar_items movie_id k.toNat)), st)
    | none =>
      match d.content_artifact with
      | none => (.contentUnavailable, st)
      | some c =>
        let st' := { st with content_model := some c }
        (.ok movie_id k (simOut st'.movies_lookup (c.similar_items movie_id k.toNat)), st')

/-! ### Helper lemmas -/

/-- Membership in the grouped keys is occurrence in the ratings table. -/
theorem mem_groupKeys (rs : List Rating) (i : Int) :
    i ∈ groupKeys rs ↔ 0 < itemCount rs i := by
  rw [groupKeys, List.mem_insertionSort, List.mem_dedup, itemCount, ratingsFor,
    List.length_map, List.length_pos_iff_exists_mem]
  constructor
  · intro h
    obtain ⟨r, hr, hri⟩ := List.mem_map.mp h
    exact ⟨r, List.mem_filter.mpr ⟨hr, by simp [hri]⟩⟩
  · rintro ⟨r, hr⟩
    obtain ⟨hr1, hr2⟩ := List.mem_filter.mp hr
    exact List.mem_map.mpr ⟨r, hr1, by simpa using hr2⟩

/-- The shrunk score lies between the item mean and the global mean. -/
theorem shrinkScore_between (n m mu : ℚ) (hn : 0 ≤ n) :
    min m mu ≤ shrinkScore n m mu ∧ shrinkScore n m mu ≤ max m mu := by
  have hd : (0:ℚ) < n + 50 := by linarith
  constructor
  · rw [shrinkScore, le_div_iff₀ hd]
    have h1 : min m mu ≤ m := min_le_left _ _
    have h2 : min m mu ≤ mu := min_le_right _ _
    nlinarith
  · rw [shrinkScore, div_le_iff₀ hd]
    have h1 : m ≤ max m mu := le_max_left _ _
    have h2 : mu ≤ max m mu := le_max_right _ _
    nlinarith

/-- With no ratings the shrunk score is exactly the global mean. -/
theorem shrinkScore_zero (m mu : ℚ) : shrinkScore 0 m mu = mu := by
  rw [shrinkScore]
  norm_num

/-- The shrunk score converges to the item mean as the count grows. -/
theorem shrinkScore_tendsto_mean (m mu eps : ℚ) (heps : 0 < eps) :
    ∃ N : ℕ, ∀ n : ℕ, N ≤ n → |shrinkScore n m mu - m| < eps := by
  obtain ⟨N, hN⟩ := exists_nat_gt (50 * |mu - m| / eps)
  refine ⟨N, fun n hn => ?_⟩
  have hd : (0:ℚ) < (n:ℚ) + 50 := by positivity
  have key : shrinkScore n m mu - m = 50 * (mu - m) / ((n:ℚ) + 50) := by
    rw [shrinkScore]
    field_simp
    ring
  rw [key, abs_div, abs_of_pos hd, div_lt_iff₀ hd, abs_mul]
  have h50 : |(50:ℚ)| = 50 := by norm_num
  rw [h50]
  have hNn : (N:ℚ) ≤ (n:ℚ) := by exact_mod_cast hn
  rw [div_lt_iff₀ heps] at hN
  nlinarith [abs_nonneg (mu - m)]

/-! ### Claim theorems -/

/-- C5: for every ratings table and every item with at least one rating,
the shrunk popularity score lies (inclusively) between the item's mean and
the global mean; at count zero the formula yields exactly the global mean;
and as the count grows the score tends to the item's mean. -/
theorem claim_C5_score_between_means (rs : List Rating) (i : Int)
    (hn : 1 ≤ itemCount rs i) (eps : ℚ) (heps : 0 < eps) :
    (min (itemMean rs i) (globalMean rs)
        ≤ shrinkScore (itemCount rs i) (itemMean rs i) (globalMean rs)
      ∧ shrinkScore (itemCount rs i) (itemMean rs i) (globalMean rs)
        ≤ max (itemMean rs i) (globalMean rs))
    ∧ (∀ m mu : ℚ, shrinkScore 0 m mu = mu)
    ∧ (∃ N : ℕ, ∀ n : ℕ, N ≤ n →
        |shrinkScore n (itemMean rs i) (globalMean rs) - itemMean rs i| < eps) := by
  refine ⟨?_, fun m mu => shrinkScore_zero m mu,
    shrinkScore_tendsto_mean _ _ _ heps⟩
  exact shrinkScore_between _ _ _ (by positivity)

/-- Witness for C5 at a concrete one-rating table. -/
theorem claim_C5_witness :
    1 ≤ itemCount [⟨1, 7, 4, 0⟩] 7 ∧ (0:ℚ) < 1
    ∧ (min (itemMean [⟨1, 7, 4, 0⟩] 7) (globalMean [⟨1, 7, 4, 0⟩])
          ≤ shrinkScore (itemCount [⟨1, 7, 4, 0⟩] 7) (itemMean [⟨1, 7, 4, 0⟩] 7)
              (globalMean [⟨1, 7, 4, 0⟩])
        ∧ shrinkScore (itemCount [⟨1, 7, 4, 0⟩] 7) (itemMean [⟨1, 7, 4, 0⟩] 7)
              (globalMean [⟨1, 7, 4, 0⟩])
          ≤ max (itemMean [⟨1, 7, 4, 0⟩] 7) (globalMean [⟨1, 7, 4, 0⟩]))
    ∧ (∀ m mu : ℚ, shrinkScore 0 m mu = mu)
    ∧ (∃ N : ℕ, ∀ n : ℕ, N ≤ n →
        |shrinkScore n (itemMean [⟨1, 7, 4, 0⟩] 7) (globalMean [⟨1, 7, 4, 0⟩])
          - itemMean [⟨1, 7, 4, 0⟩] 7| < 1) := by
  refine ⟨by decide, by norm_num, ?_⟩
  exact claim_C5_score_between_means [⟨1, 7, 4, 0⟩] 7 (by decide) 1 (by norm_num)

/-- C7: for every trained popularity model, `Recommend(k)` returns the
first `k` entries of the ranked list; when `k` is at least the model size
it returns the whole ranked list (no error, no padding), and the output
never exceeds `k` entries. -/
theorem claim_C7_recommend_first_k (m : PopularityRecommender) (u : Int)
    (k : ℕ) (hk : 1 ≤ k) :
    m.recommend u k = m.ranked.take k
    ∧ (m.ranked.length ≤ k → m.recommend u k = m.ranked)
    ∧ (m.recommend u k).length = min k m.ranked.length := by
  refine ⟨rfl, fun h => ?_, ?_⟩
  · simpa [PopularityRecommender.recommend] using List.take_of_length_le h
  · simp [PopularityRecommender.recommend, List.length_take]

/-- Witness for C7 on a one-element model with `k` exceeding the size. -/
theorem claim_C7_witness :
    (1:ℕ) ≤ 3
    ∧ (PopularityRecommender.mk [Rec.mk 7 1]).recommend 1 3 = [Rec.mk 7 1] := by
  refine ⟨by norm_num, ?_⟩
  exact (claim_C7_recommend_first_k (PopularityRecommender.mk [Rec.mk 7 1]) 1 3
    (by norm_num)).2.1 (by norm_num)

/-- C6: the caller-supplied user id changes neither strategy's output: the
popularity and content model `recommend` results, and the recommendation
list and status of the `/v1/recommendations` endpoint, coincide for any
two valid user ids. -/
theorem claim_C6_user_id_ignored (p : PopularityRecommender)
    (c : ContentTfidfModel) (st : ServiceState) (k : ℕ) (kq : Int)
    (u1 u2 : Int) (h1 : 1 ≤ u1) (h2 : 1 ≤ u2) :
    p.recommend u1 k = p.recommend u2 k
    ∧ c.recommend u1 k = c.recommend u2 k
    ∧ (∀ s, (Api.recommendations st u1 kq s).recs
          = (Api.recommendations st u2 kq s).recs
        ∧ (Api.recommendations st u1 kq s).status
          = (Api.recommendations st u2 kq s).status) := by
  refine ⟨rfl, rfl, fun s => ?_⟩
  have hu1 : ¬ u1 < 1 := by omega
  have hu2 : ¬ u2 < 1 := by omega
  unfold Api.recommendations
  by_cases hk1 : kq < 1
  · simp [hu1, hu2, hk1]
  · by_cases hk2 : 50 < kq
    · simp [hu1, hu2, hk1, hk2]
    · by_cases hml : st.models_loaded = true
      · by_cases hpn : st.pop_model = none
        · simp [hu1, hu2, hk1, hk2, hml, hpn]
        · obtain ⟨pm, hpm⟩ := Option.ne_none_iff_exists'.mp hpn
          have hc1 : ¬ (u1 < 1 ∨ kq < 1 ∨ 50 < kq) := by omega
          have hc2 : ¬ (u2 < 1 ∨ kq < 1 ∨ 50 < kq) := by omega
          cases s <;> cases hcm : st.content_model <;>
            simp [hc1, hc2, hml, hpm, hcm, RecResponse.recs, RecResponse.status,
              PopularityRecommender.recommend, ContentTfidfModel.recommend]
      · have hml' : st.models_loaded = false := by
          cases h : st.models_loaded
          · rfl
          · exact absurd h hml
        simp [hu1, hu2, hk1, hk2, hml']

/-- Witness for C6 at concrete users 1 and 2 on an unloaded service. -/
theorem claim_C6_witness :
    (1:Int) ≤ 1 ∧ (1:Int) ≤ 2
    ∧ (PopularityRecommender.mk []).recommend 1 5
        = (PopularityRecommender.mk []).recommend 2 5 := by
  refine ⟨by norm_num, by norm_num, ?_⟩
  exact (claim_C6_user_id_ignored (PopularityRecommender.mk [])
    (ContentTfidfModel.mk [] []) ⟨none, none, [], false⟩ 5 5 1 2
    (by norm_num) (by norm_num)).1

/-- Unfolding of the trained ranked list. -/
theorem train_ranked_eq (rs : List Rating) :
    (PopularityRecommender.train rs).ranked
      = ((groupKeys rs).map (fun i =>
          Rec.mk i (shrinkScore (itemCount rs i) (itemMean rs i)
            (globalMean rs)))).insertionSort
          (fun a b => b.score ≤ a.score) := rfl

/-- C1: training assigns each rated item the score
`(n_i * m_i + 50 * mu) / (n_i + 50)` (`C = 50`), and items with zero
ratings are absent from the model. -/
theorem claim_C1_train_formula (rs : List Rating) (_hne : rs ≠ []) :
    (∀ i : Int, 0 < itemCount rs i →
      Rec.mk i (shrinkScore (itemCount rs i) (itemMean rs i) (globalMean rs))
        ∈ (PopularityRecommender.train rs).ranked)
    ∧ (∀ i : Int, itemCount rs i = 0 →
        ∀ r ∈ (PopularityRecommender.train rs).ranked, r.movie_id ≠ i) := by
  constructor
  · intro i hi
    rw [train_ranked_eq, List.mem_insertionSort]
    exact List.mem_map.mpr ⟨i, (mem_groupKeys rs i).mpr hi, rfl⟩
  · intro i hi r hr rid
    rw [train_ranked_eq, List.mem_insertionSort] at hr
    obtain ⟨j, hj, rfl⟩ := List.mem_map.mp hr
    have hcj : 0 < itemCount rs j := (mem_groupKeys rs j).mp hj
    simp only at rid
    rw [rid] at hcj
    omega

/-- Witness for C1 on a one-rating table: item 7 is scored, item 2 absent. -/
theorem claim_C1_witness :
    ([⟨1, 7, 4, 0⟩] : List Rating) ≠ []
    ∧ 0 < itemCount [⟨1, 7, 4, 0⟩] 7
    ∧ Rec.mk 7 (shrinkScore (itemCount [⟨1, 7, 4, 0⟩] 7)
          (itemMean [⟨1, 7, 4, 0⟩] 7) (globalMean [⟨1, 7, 4, 0⟩]))
        ∈ (PopularityRecommender.train [⟨1, 7, 4, 0⟩]).ranked
    ∧ itemCount [⟨1, 7, 4, 0⟩] 2 = 0
    ∧ ∀ r ∈ (PopularityRecommender.train [⟨1, 7, 4, 0⟩]).ranked,
        r.movie_id ≠ 2 := by
  refine ⟨by decide, by decide,
    (claim_C1_train_formula [⟨1, 7, 4, 0⟩] (by decide)).1 7 (by decide),
    by decide,
    (claim_C1_train_formula [⟨1, 7, 4, 0⟩] (by decide)).2 2 (by decide)⟩

/-- Dot product on the cons cells. -/
theorem dot_cons (x y : ℚ) (a b : List ℚ) :
    dot (x :: a) (y :: b) = x * y + dot a b := by
  simp [dot]

/-- Dot products of entrywise non-negative rows are non-negative. -/
theorem dot_nonneg : ∀ (a b : List ℚ), (∀ x ∈ a, 0 ≤ x) → (∀ x ∈ b, 0 ≤ x) →
    0 ≤ dot a b
  | [], _, _, _ => by simp [dot]
  | _ :: _, [], _, _ => by simp [dot]
  | x :: a, y :: b, ha, hb => by
    have hx : 0 ≤ x := ha x (by simp)
    have hy : 0 ≤ y := hb y (by simp)
    have ih := dot_nonneg a b (fun z hz => ha z (by simp [hz]))
      (fun z hz => hb z (by simp [hz]))
    rw [dot_cons]
    nlinarith

/-- Squared norms are non-negative. -/
theorem normSq_nonneg : ∀ a : List ℚ, 0 ≤ normSq a
  | [] => by simp [normSq, dot]
  | x :: a => by
    have ih := normSq_nonneg a
    have h : normSq (x :: a) = x * x + normSq a := by
      simp [normSq, dot_cons]
    nlinarith

/-- The similarity order-key of non-negative rows is non-negative. -/
theorem simKey_nonneg (a b : List ℚ) (ha : ∀ x ∈ a, 0 ≤ x)
    (hb : ∀ x ∈ b, 0 ≤ x) : 0 ≤ simKey a b := by
  rw [simKey]
  split
  · exact le_refl _
  · rename_i h
    push_neg at h
    apply div_nonneg
    · exact mul_nonneg (dot_nonneg a b ha hb) (abs_nonneg _)
    · have h1 := normSq_nonneg a
      have h2 := normSq_nonneg b
      positivity

/-- C3 (amended): on a trained-shaped content model (non-negative feature
matrix, duplicate-free ids, matrix rows parallel to ids), a seed absent
from the model yields an empty result without error, and a present seed is
excluded from the output as long as `k` is smaller than the number of
items; at `k ≥` the item count the sentinel row itself is selected (see
the counterexample). -/
theorem claim_C3_similar_items_amended (m : ContentTfidfModel) (seed : Int)
    (k : ℕ)
    (hnn : ∀ row ∈ m.tfidf_matrix, ∀ x ∈ row, 0 ≤ x)
    (hnodup : m.movie_ids.Nodup)
    (hlen : m.tfidf_matrix.length = m.movie_ids.length)
    (hk : 1 ≤ k) :
    (seed ∉ m.movie_ids → m.similar_items seed k = [])
    ∧ (seed ∈ m.movie_ids → k < m.movie_ids.length →
        seed ∉ m.similar_items seed k) := by
  constructor
  · intro habs
    have hnone : (List.range m.movie_ids.length).find?
        (fun j => decide (m.movie_ids.getD j 0 = seed)) = none := by
      rw [List.find?_eq_none]
      intro j hj
      have hjlt : j < m.movie_ids.length := List.mem_range.mp hj
      simp only [decide_eq_true_eq]
      rw [List.getD_eq_getElem _ _ hjlt]
      intro he
      exact habs (he ▸ List.getElem_mem hjlt)
    simp only [ContentTfidfModel.similar_items, hnone]
  · intro hmem hklt hcontra
    obtain ⟨jx, hjxlt, hjx⟩ := List.getElem_of_mem hmem
    have hsome : ((List.range m.movie_ids.length).find?
        (fun j => decide (m.movie_ids.getD j 0 = seed))).isSome := by
      rw [List.find?_isSome]
      refine ⟨jx, List.mem_range.mpr hjxlt, ?_⟩
      simp [List.getElem?_eq_getElem hjxlt, hjx]
    obtain ⟨i0, hi0⟩ := Option.isSome_iff_exists.mp hsome
    have hi0seed : m.movie_ids.getD i0 0 = seed := by
      simpa using List.find?_some hi0
    have hi0lt : i0 < m.movie_ids.length :=
      List.mem_range.mp (List.mem_of_find?_eq_some hi0)
    rw [ContentTfidfModel.similar_items, hi0] at hcontra
    simp only at hcontra
    set sims : ℕ → ℚ := fun j =>
      if j = i0 then -1
      else simKey (m.tfidf_matrix.getD i0 []) (m.tfidf_matrix.getD j []) with hsims
    set sorted := (List.range m.tfidf_matrix.length).insertionSort
      (fun a b => sims b ≤ sims a) with hsorted
    obtain ⟨j, hjtop, hjseed⟩ := List.mem_map.mp hcontra
    have hjmem : j ∈ sorted := List.take_subset k sorted hjtop
    have hjrange : j < m.tfidf_matrix.length := by
      rw [hsorted] at hjmem
      exact List.mem_range.mp ((List.mem_insertionSort _).mp hjmem)
    have hRN : m.tfidf_matrix.length = m.movie_ids.length := hlen
    by_cases hji : j = i0
    · subst hji
      -- the seed's own index survived the take; derive a contradiction
      have hperm : List.Perm sorted (List.range m.tfidf_matrix.length) :=
        List.perm_insertionSort _ _
      have hsortnd : sorted.Nodup := hperm.symm.nodup (List.nodup_range _)
      have hlensorted : sorted.length = m.tfidf_matrix.length := by
        simpa using hperm.length_eq
      have hdroplen : 0 < (sorted.drop k).length := by
        rw [List.length_drop, hlensorted]
        omega
      obtain ⟨j0, hj0⟩ := List.exists_mem_of_length_pos hdroplen
      have hpair : sorted.Pairwise (fun a b => sims b ≤ sims a) := by
        haveI : IsTotal ℕ (fun a b : ℕ => sims b ≤ sims a) :=
          ⟨fun a b => le_total _ _⟩
        haveI : IsTrans ℕ (fun a b : ℕ => sims b ≤ sims a) :=
          ⟨fun _ _ _ hab hbc => le_trans hbc hab⟩
        rw [hsorted]
        exact List.sorted_insertionSort _ _
      have hsplit := List.take_append_drop k sorted
      have hcross : sims j0 ≤ sims j := by
        rw [← hsplit] at hpair
        exact (List.pairwise_append.mp hpair).2.2 j hjtop j0 hj0
      have hne : j0 ≠ j := by
        rw [← hsplit] at hsortnd
        intro he
        exact (List.nodup_append.mp hsortnd).2.2 hjtop (he ▸ hj0)
      have hj0range : j0 < m.tfidf_matrix.length := by
        have hj0s : j0 ∈ sorted := List.drop_subset k sorted hj0
        rw [hsorted] at hj0s
        exact List.mem_range.mp ((List.mem_insertionSort _).mp hj0s)
      have hsimsj : sims j = -1 := by
        rw [hsims]
        simp
      have hsimsj0 : 0 ≤ sims j0 := by
        rw [hsims]
        simp only [hne, if_neg]
        apply simKey_nonneg
        · intro x hx
          refine hnn _ ?_ x hx
          rw [List.getD_eq_getElem _ _ (hRN ▸ hi0lt)]
          exact List.getElem_mem _
        · intro x hx
          refine hnn _ ?_ x hx
          rw [List.getD_eq_getElem _ _ hj0range]
          exact List.getElem_mem _
      rw [hsimsj] at hcross
      linarith
    · -- a different row mapped to the seed id: impossible since ids are
      -- duplicate-free
      have hjlt' : j < m.movie_ids.length := hRN ▸ hjrange
      rw [List.getD_eq_getElem _ _ hjlt'] at hjseed
      rw [List.getD_eq_getElem _ _ hi0lt] at hi0seed
      have : (⟨j, hjlt'⟩ : Fin m.movie_ids.length) = ⟨i0, hi0lt⟩ := by
        apply List.nodup_iff_injective_getElem.mp hnodup
        simp [hjseed, hi0seed]
      exact hji (by simpa using congrArg Fin.val this)

/-- Witness for C3 (amended) on a three-item model with `k = 1`. -/
theorem claim_C3_witness :
    ((ContentTfidfModel.mk [1, 2, 3] [[1], [1], [0]]).similar_items 9 1 = [])
    ∧ (1 : Int) ∉ (ContentTfidfModel.mk [1, 2, 3] [[1], [1], [0]]).similar_items 1 1 := by
  have hnn : ∀ row ∈ (ContentTfidfModel.mk [1, 2, 3] [[1], [1], [0]]).tfidf_matrix,
      ∀ x ∈ row, (0:ℚ) ≤ x := by
    intro row hrow x hx
    fin_cases hrow <;> simp_all
  refine ⟨?_, ?_⟩
  · exact (claim_C3_similar_items_amended
      (ContentTfidfModel.mk [1, 2, 3] [[1], [1], [0]]) 9 1 hnn
      (by decide) (by decide) (le_refl 1)).1 (by decide)
  · exact (claim_C3_similar_items_amended
      (ContentTfidfModel.mk [1, 2, 3] [[1], [1], [0]]) 1 1 hnn
      (by decide) (by decide) (le_refl 1)).2 (by decide) (by decide)

/-- Counterexample to C3 as stated: on the trained-shaped two-item model
with identical rows, `SimilarItems(1, 2)` returns `[2, 1]` — the seed item
itself is included (with the sentinel similarity) once `k` reaches the
number of items. -/
theorem claim_C3_counterexample :
    (ContentTfidfModel.mk [1, 2] [[1], [1]]).movie_ids.Nodup
    ∧ (∀ row ∈ (ContentTfidfModel.mk [1, 2] [[1], [1]]).tfidf_matrix,
        ∀ x ∈ row, (0:ℚ) ≤ x)
    ∧ (ContentTfidfModel.mk [1, 2] [[1], [1]]).tfidf_matrix.length
        = (ContentTfidfModel.mk [1, 2] [[1], [1]]).movie_ids.length
    ∧ (1 : Int) ∈ (ContentTfidfModel.mk [1, 2] [[1], [1]]).movie_ids
    ∧ (1 : ℕ) ≤ 2
    ∧ (ContentTfidfModel.mk [1, 2] [[1], [1]]).similar_items 1 2 = [2, 1]
    ∧ (1 : Int) ∈ (ContentTfidfModel.mk [1, 2] [[1], [1]]).similar_items 1 2 := by
  have heval : (ContentTfidfModel.mk [1, 2] [[1], [1]]).similar_items 1 2
      = [2, 1] := by
    norm_num [ContentTfidfModel.similar_items, simKey, dot, normSq, List.find?,
      List.range, List.range.loop, List.insertionSort, List.orderedInsert]
  refine ⟨by decide, ?_, by decide, by decide, by decide, heval, ?_⟩
  · intro row hrow x hx
    fin_cases hrow <;> simp_all
  · rw [heval]
    decide

/-- The search accumulation loop collects exactly the matches in iteration
order, capped at the remaining capacity. -/
theorem searchLoop_eq_filter_take (query : String)
    (l : List (Int × MovieMeta)) :
    ∀ limit : ℕ, 1 ≤ limit →
      searchLoop query l limit
        = ((l.filter (fun p =>
            containsSubstr (casefold p.2.title) query)).map
            (fun p => MovieRecord.mk p.1 (clean_text p.2.title)
              (clean_text p.2.genres))).take limit := by
  induction l with
  | nil => intro limit _; simp [searchLoop]
  | cons p rest ih =>
    intro limit hl
    by_cases hmatch : containsSubstr (casefold p.2.title) query
    · by_cases hone : limit ≤ 1
      · have h1 : limit = 1 := by omega
        subst h1
        simp [searchLoop, hmatch, List.filter_cons]
      · obtain ⟨n, rfl⟩ : ∃ n, limit = n + 1 := ⟨limit - 1, by omega⟩
        have h2 : 1 ≤ n := by omega
        simp only [searchLoop, hmatch, if_true, hone, if_false, ih n h2,
          List.filter_cons, List.take_succ_cons]
        rw [List.map_cons, List.take_succ_cons, Nat.add_sub_cancel, ih n h2]
    · simp [searchLoop, hmatch, List.filter_cons, ih limit hl]

/-- C8 (amended): an empty query never reaches the handler — it is a
parameter-validation failure (422), not the handler's 400; a non-empty but
blank query (whitespace only) is the handler's 400 "Empty query."; a query
that strips to something non-blank returns exactly the catalog entries
whose title contains the stripped case-folded query, in catalog iteration
order, capped at `limit`. -/
theorem claim_C8_search_movies_amended (lookup : List (Int × MovieMeta))
    (q : String) (limit : Int)
    (hqlen : 1 ≤ q.length) (hq : casefold (pyStrip q) ≠ "")
    (hl1 : 1 ≤ limit) (hl2 : limit ≤ 50) :
    Api.search_movies lookup q limit
      = .ok q limit (((lookup.filter (fun p =>
            containsSubstr (casefold p.2.title) (casefold (pyStrip q)))).map
            (fun p => MovieRecord.mk p.1 (clean_text p.2.title)
              (clean_text p.2.genres))).take limit.toNat)
    ∧ (∀ q' : String, 1 ≤ q'.length → casefold (pyStrip q') = "" →
        Api.search_movies lookup q' limit = .emptyQuery)
    ∧ Api.search_movies lookup "" limit = .invalid := by
  have hcl : ¬ (q.length < 1 ∨ limit < 1 ∨ 50 < limit) := by
    push_neg
    exact ⟨by omega, by omega, by omega⟩
  have hlt : 1 ≤ limit.toNat := by omega
  refine ⟨?_, ?_, ?_⟩
  · rw [Api.search_movies, if_neg hcl]
    simp only [hq, if_false]
    rw [searchLoop_eq_filter_take _ _ _ hlt]
  · intro q' hq'len hq'
    have hcl' : ¬ (q'.length < 1 ∨ limit < 1 ∨ 50 < limit) := by
      push_neg
      exact ⟨by omega, by omega, by omega⟩
    rw [Api.search_movies, if_neg hcl']
    simp [hq']
  · rw [Api.search_movies, if_pos]
    left
    simp

/-- Witness for C8 (amended) on a two-item catalog: the query matches by
case-insensitive substring, and the blank/empty query conjuncts fire. -/
theorem claim_C8_witness :
    1 ≤ ("Alpha" : String).length
    ∧ casefold (pyStrip ("Alpha" : String)) ≠ ""
    ∧ (1:Int) ≤ 20 ∧ (20:Int) ≤ 50
    ∧ Api.search_movies [((1:Int), MovieMeta.mk "Alpha" "Drama"),
        ((2:Int), MovieMeta.mk "Beta" "Comedy")] "Alpha" 20
      = .ok "Alpha" 20 [MovieRecord.mk 1 (some "Alpha") (some "Drama")]
    ∧ Api.search_movies [((1:Int), MovieMeta.mk "Alpha" "Drama"),
        ((2:Int), MovieMeta.mk "Beta" "Comedy")] " " 20 = .emptyQuery := by
  have h := claim_C8_search_movies_amended
    [((1:Int), MovieMeta.mk "Alpha" "Drama"),
      ((2:Int), MovieMeta.mk "Beta" "Comedy")] "Alpha" 20
    (by decide) (by decide) (by decide) (by decide)
  refine ⟨by decide, by decide, by decide, by decide, ?_, ?_⟩
  · rw [h.1]
    decide
  · exact h.2.1 " " (by decide) (by decide)

/-- Counterexample to C8 as stated: the literally empty query is rejected
by parameter validation with 422, not with the claimed 400. -/
theorem claim_C8_counterexample :
    (Api.search_movies [] "" 20).status = 422
    ∧ (Api.search_movies [] "" 20).status ≠ 400 := by
  exact ⟨by decide, by decide⟩

/-- C9 (amended): `/v1/movies/{id}` answers 404 exactly when the id
resolves to no display data — either it is absent from the catalog lookup,
or its entry has a blank title and blank genres; an id whose entry has at
least one non-blank field gets the record `{movie_id, title, genres}`. -/
theorem claim_C9_get_movie_amended (lookup : List (Int × MovieMeta))
    (movie_id : Int) :
    (Api.get_movie lookup movie_id = .notFound ↔
      ∀ meta : MovieMeta, lookupMeta lookup movie_id = some meta →
        clean_text meta.title = none ∧ clean_text meta.genres = none)
    ∧ (∀ meta : MovieMeta, lookupMeta lookup movie_id = some meta →
        clean_text meta.title ≠ none ∨ clean_text meta.genres ≠ none →
        Api.get_movie lookup movie_id
          = .ok (MovieRecord.mk movie_id (clean_text meta.title)
              (clean_text meta.genres)))
    ∧ (lookupMeta lookup movie_id = none →
        Api.get_movie lookup movie_id = .notFound) := by
  cases hlm : lookupMeta lookup movie_id with
  | none =>
    refine ⟨⟨fun _ meta hm => by simp [hlm] at hm, fun _ => ?_⟩,
      fun meta hm => by simp [hlm] at hm, fun _ => ?_⟩ <;>
      simp [Api.get_movie, movie_record, hlm]
  | some meta =>
    by_cases ht : clean_text meta.title = none <;>
      by_cases hg : clean_text meta.genres = none
    · refine ⟨⟨fun _ meta' hm' => ?_, fun _ => ?_⟩, fun meta' hm' hor => ?_,
        fun hn => by simp [hlm] at hn⟩
      · obtain rfl := Option.some.inj hm'
        exact ⟨ht, hg⟩
      · simp [Api.get_movie, movie_record, hlm, ht, hg]
      · obtain rfl := Option.some.inj hm'
        rcases hor with h | h
        · exact absurd ht h
        · exact absurd hg h
    · refine ⟨⟨fun hnf => ?_, fun hall => ?_⟩, fun meta' hm' hor => ?_,
        fun hn => by simp [hlm] at hn⟩
      · simp [Api.get_movie, movie_record, hlm, ht, hg] at hnf
      · exact absurd (hall meta rfl).2 hg
      · obtain rfl := Option.some.inj hm'
        simp [Api.get_movie, movie_record, hlm, ht, hg]
    · refine ⟨⟨fun hnf => ?_, fun hall => ?_⟩, fun meta' hm' hor => ?_,
        fun hn => by simp [hlm] at hn⟩
      · simp [Api.get_movie, movie_record, hlm, ht, hg] at hnf
      · exact absurd (hall meta rfl).1 ht
      · obtain rfl := Option.some.inj hm'
        simp [Api.get_movie, movie_record, hlm, ht, hg]
    · refine ⟨⟨fun hnf => ?_, fun hall => ?_⟩, fun meta' hm' hor => ?_,
        fun hn => by simp [hlm] at hn⟩
      · simp [Api.get_movie, movie_record, hlm, ht, hg] at hnf
      · exact absurd (hall meta rfl).1 ht
      · obtain rfl := Option.some.inj hm'
        simp [Api.get_movie, movie_record, hlm, ht, hg]

/-- Witness for C9 (amended): a present id with a non-blank title yields
its record; an absent id yields 404. -/
theorem claim_C9_witness :
    lookupMeta [((5:Int), MovieMeta.mk "T" "")] 5 = some (MovieMeta.mk "T" "")
    ∧ Api.get_movie [((5:Int), MovieMeta.mk "T" "")] 5
        = .ok (MovieRecord.mk 5 (some "T") none)
    ∧ lookupMeta [((5:Int), MovieMeta.mk "T" "")] 9 = none
    ∧ Api.get_movie [((5:Int), MovieMeta.mk "T" "")] 9 = .notFound := by
  refine ⟨by decide, ?_, by decide, ?_⟩
  · exact (claim_C9_get_movie_amended [((5:Int), MovieMeta.mk "T" "")] 5).2.1
      (MovieMeta.mk "T" "") (by decide) (by decide)
  · exact (claim_C9_get_movie_amended [((5:Int), MovieMeta.mk "T" "")] 9).2.2
      (by decide)

/-- Counterexample to C9 as stated: id 1 is present in the catalog lookup
(with blank display fields) yet the endpoint answers 404. -/
theorem claim_C9_counterexample :
    lookupMeta [((1:Int), MovieMeta.mk "" "")] 1 = some (MovieMeta.mk "" "")
    ∧ Api.get_movie [((1:Int), MovieMeta.mk "" "")] 1 = .notFound
    ∧ (Api.get_movie [((1:Int), MovieMeta.mk "" "")] 1).status = 404 := by
  exact ⟨by decide, by decide, by decide⟩

/-- Counterexample to C4 as stated: after a restart with both artifacts
present on disk (`lifespan` loads only popularity), a
`strategy=content` recommendations request fails with the 400
"Content model is not loaded yet" response even though the content
artifact exists — the endpoint never attempts the load. -/
theorem claim_C4_counterexample :
    (Api.lifespan
        ⟨some (PopularityRecommender.mk [Rec.mk 1 3]),
          some (ContentTfidfModel.mk [1, 2] [[1], [1]])⟩ []).content_model
      = none
    ∧ (Api.recommendations
        (Api.lifespan
          ⟨some (PopularityRecommender.mk [Rec.mk 1 3]),
            some (ContentTfidfModel.mk [1, 2] [[1], [1]])⟩ [])
        1 10 .content)
      = RecResponse.contentUnavailable
    ∧ (Api.recommendations
        (Api.lifespan
          ⟨some (PopularityRecommender.mk [Rec.mk 1 3]),
            some (ContentTfidfModel.mk [1, 2] [[1], [1]])⟩ [])
        1 10 .content).status = 400 := by
  refine ⟨rfl, rfl, rfl⟩

/-- C4 (amended): only `/v1/similar-items` lazy-loads the content model.
A `strategy=content` recommendations request fails with 400 whenever the
content model is not currently loaded, regardless of what is on disk;
popularity serving is unaffected by the content slot; a similar-items
request with the artifact present loads it into the state and succeeds,
and with the artifact absent fails that single request with 400 leaving
the state unchanged. -/
theorem claim_C4_lazy_load_amended (d : Disk) (st : ServiceState)
    (p : PopularityRecommender) (u mid k : Int)
    (hload : st.models_loaded = true) (hpop : st.pop_model = some p)
    (hu : 1 ≤ u) (hmid : 1 ≤ mid) (hk1 : 1 ≤ k) (hk2 : k ≤ 50) :
    (st.content_model = none →
      Api.recommendations st u k .content = RecResponse.contentUnavailable)
    ∧ (∀ x : Option ContentTfidfModel,
        Api.recommendations { st with content_model := x } u k .popularity
          = RecResponse.ok u k .popularity
              (normalizePop st.movies_lookup (p.recommend u k.toNat)))
    ∧ (st.content_model = none → ∀ c, d.content_artifact = some c →
        Api.similar_items d st mid k
          = (SimResponse.ok mid k
              (simOut st.movies_lookup (c.similar_items mid k.toNat)),
             { st with content_model := some c }))
    ∧ (st.content_model = none → d.content_artifact = none →
        Api.similar_items d st mid k = (SimResponse.contentUnavailable, st)) := by
  have hcu : ¬ (u < 1 ∨ k < 1 ∨ 50 < k) := by
    push_neg
    exact ⟨by omega, by omega, by omega⟩
  have hcm : ¬ (mid < 1 ∨ k < 1 ∨ 50 < k) := by
    push_neg
    exact ⟨by omega, by omega, by omega⟩
  have hnl : ¬ (¬ st.models_loaded ∨ st.pop_model = none) := by
    push_neg
    exact ⟨by simp [hload], by simp [hpop]⟩
  refine ⟨fun hcn => ?_, fun x => ?_, fun hcn c hart => ?_, fun hcn hart => ?_⟩
  · rw [Api.recommendations, if_neg hcu, if_neg hnl]
    simp [hcn]
  · rw [Api.recommendations, if_neg hcu, if_neg (by simpa using hnl)]
    simp [hpop]
  · rw [Api.similar_items, if_neg hcm, if_neg hnl]
    simp [hcn, hart]
  · rw [Api.similar_items, if_neg hcm, if_neg hnl]
    simp [hcn, hart]

/-- Witness for C4 (amended) on a concrete loaded service and disk. -/
theorem claim_C4_witness :
    (ServiceState.mk (some (PopularityRecommender.mk [Rec.mk 1 3])) none []
        true).models_loaded = true
    ∧ (ServiceState.mk (some (PopularityRecommender.mk [Rec.mk 1 3])) none []
        true).content_model = none
    ∧ Api.recommendations
        (ServiceState.mk (some (PopularityRecommender.mk [Rec.mk 1 3])) none []
          true) 1 10 .content = RecResponse.contentUnavailable
    ∧ Api.similar_items ⟨none, some (ContentTfidfModel.mk [1, 2] [[1], [1]])⟩
        (ServiceState.mk (some (PopularityRecommender.mk [Rec.mk 1 3])) none []
          true) 1 10
      = (SimResponse.ok 1 10
          (simOut [] ((ContentTfidfModel.mk [1, 2] [[1], [1]]).similar_items 1 10)),
         ServiceState.mk (some (PopularityRecommender.mk [Rec.mk 1 3]))
           (some (ContentTfidfModel.mk [1, 2] [[1], [1]])) [] true) := by
  have h := claim_C4_lazy_load_amended
    ⟨none, some (ContentTfidfModel.mk [1, 2] [[1], [1]])⟩
    (ServiceState.mk (some (PopularityRecommender.mk [Rec.mk 1 3])) none [] true)
    (PopularityRecommender.mk [Rec.mk 1 3]) 1 1 10
    rfl rfl (by norm_num) (by norm_num) (by norm_num) (by norm_num)
  exact ⟨rfl, rfl, h.1 rfl, h.2.2.1 rfl _ rfl⟩

/-- C10: once the content model is loaded in the service state, it
persists: `/v1/similar-items` never reloads or drops it and never answers
the 400 "content unavailable" again, `/v1/recommendations` with
`strategy=content` never answers it either, and both endpoints dispatch
to the loaded model for valid parameters. -/
theorem claim_C10_content_persists (d : Disk) (st : ServiceState)
    (c : ContentTfidfModel) (hc : st.content_model = some c)
    (u mid k : Int) :
    ((Api.similar_items d st mid k).2 = st)
    ∧ ((Api.similar_items d st mid k).1 ≠ SimResponse.contentUnavailable)
    ∧ (Api.recommendations st u k .content ≠ RecResponse.contentUnavailable)
    ∧ (st.models_loaded = true → st.pop_model ≠ none →
        ¬ (mid < 1 ∨ k < 1 ∨ 50 < k) →
        Api.similar_items d st mid k
          = (SimResponse.ok mid k
              (simOut st.movies_lookup (c.similar_items mid k.toNat)), st))
    ∧ (st.models_loaded = true → st.pop_model ≠ none →
        ¬ (u < 1 ∨ k < 1 ∨ 50 < k) →
        Api.recommendations st u k .content
          = RecResponse.ok u k .content
              (normalizeContent st.movies_lookup (c.recommend u k.toNat))) := by
  refine ⟨?_, ?_, ?_, fun hml hpn hv => ?_, fun hml hpn hv => ?_⟩
  · rw [Api.similar_items]
    split
    · rfl
    · split
      · rfl
      · simp [hc]
  · rw [Api.similar_items]
    split
    · simp
    · split
      · simp
      · simp [hc]
  · rw [Api.recommendations]
    split
    · simp
    · split
      · simp
      · simp [hc]
  · rw [Api.similar_items, if_neg hv, if_neg (by push_neg; simp [hml, hpn])]
    simp [hc]
  · rw [Api.recommendations, if_neg hv, if_neg (by push_neg; simp [hml, hpn])]
    simp [hc]

/-- Witness for C10 on a concrete loaded state. -/
theorem claim_C10_witness :
    (ServiceState.mk (some (PopularityRecommender.mk [Rec.mk 1 3]))
        (some (ContentTfidfModel.mk [1, 2] [[1], [1]])) [] true).content_model
      = some (ContentTfidfModel.mk [1, 2] [[1], [1]])
    ∧ (Api.similar_items ⟨none, none⟩
        (ServiceState.mk (some (PopularityRecommender.mk [Rec.mk 1 3]))
          (some (ContentTfidfModel.mk [1, 2] [[1], [1]])) [] true) 1 10).2
      = ServiceState.mk (some (PopularityRecommender.mk [Rec.mk 1 3]))
          (some (ContentTfidfModel.mk [1, 2] [[1], [1]])) [] true
    ∧ (Api.recommendations
        (ServiceState.mk (some (PopularityRecommender.mk [Rec.mk 1 3]))
          (some (ContentTfidfModel.mk [1, 2] [[1], [1]])) [] true) 1 10 .content)
      ≠ RecResponse.contentUnavailable := by
  have h := claim_C10_content_persists ⟨none, none⟩
    (ServiceState.mk (some (PopularityRecommender.mk [Rec.mk 1 3]))
      (some (ContentTfidfModel.mk [1, 2] [[1], [1]])) [] true)
    (ContentTfidfModel.mk [1, 2] [[1], [1]]) rfl 1 1 10
  exact ⟨rfl, h.1, h.2.2.1⟩
